import Mathlib

/-!
Shallow embedding of `src/data/dataset.py` (class `Dataset`) from the
semi-auto-anno repository: the sequence registry, the stack builders
`imgStackRGBOnly` / `imgStackDepthOnly`, and their caches.

Modelling conventions:
* numpy float32 arrays are modelled as nested lists of rationals (`ℚ`);
  float rounding is outside the model, arithmetic is exact.
* Python dicts (`_imgStacks`, `_dptStacks`, `_labelStacks`) are modelled as
  association lists keyed by `String`, with overwrite-on-insert semantics.
* Python's `_imgSeqs` list field is the Lean field `imgSeqs`; the leading
  underscore is dropped.
* Arrays passed to `numpy.asarray` are assumed rectangular with the ranks the
  data model prescribes (color rank 3, dpt/gtorig/gt3Dcrop rank 2); for ragged
  input numpy would already fail at `asarray`/shape-unpack, which is outside
  the model.  Shapes are read off the nested lists exactly where the source
  reads `.shape`.
* numpy element assignment `dest[i] = src` broadcasts `src` into the slot
  shape and raises `ValueError` when the shapes are incompatible; this is
  modelled by `dimOk`/`broadcast3` and an explicit error result.
* A raised Python exception is the `.error` result; the `return []` of a
  failed name lookup is `.notFound` (for `imgSeq` itself: `none`).
-/

abbrev Arr1 := List ℚ
abbrev Arr2 := List (List ℚ)
abbrev Arr3 := List (List (List ℚ))
abbrev Arr4 := List (List (List (List ℚ)))

/-- One frame of a sequence (`color`, `dpt`, `gtorig`, `gt3Dcrop`, `com`). -/
structure Frame where
  color : Arr3
  dpt : Arr2
  gtorig : Arr2
  gt3Dcrop : Arr2
  com : Arr1
deriving DecidableEq

/-- The part of the per-sequence `config` dict the builders read: `config['cube']`. -/
structure SeqConfig where
  cube : Arr1
deriving DecidableEq

/-- `NamedImgSequence` from `data.basetypes`: a name, a config and a frame list. -/
structure NamedImgSequence where
  name : String
  config : SeqConfig
  data : List Frame
deriving DecidableEq

/-- A Python dict keyed by strings, as an association list (later keys shadow none:
insert removes the old binding). -/
abbrev Dict (α : Type) := List (String × α)

/-- Dict lookup (`d[k]` / `k in d`). -/
def Dict.lookup {α : Type} (d : Dict α) (k : String) : Option α :=
  match d with
  | [] => none
  | (k', v) :: rest => if k' = k then some v else Dict.lookup rest k

/-- Dict update `d[k] = v` (overwrites any existing binding). -/
def Dict.insert {α : Type} (d : Dict α) (k : String) (v : α) : Dict α :=
  match d with
  | [] => [(k, v)]
  | (k', v') :: rest =>
      if k' = k then (k, v) :: rest else (k', v') :: Dict.insert rest k v

/-- The `Dataset` object state: the registry plus the three stack caches.
Lean field `imgSeqs` models Python `_imgSeqs`, and so on. -/
structure Dataset where
  localCache : Bool
  imgSeqs : List NamedImgSequence
  imgStacks : Dict Arr4
  dptStacks : Dict Arr4
  labelStacks : Dict Arr3
deriving DecidableEq

/-- `Dataset.__init__(imgSeqs=None, localCache=True)`. -/
def Dataset.init (imgSeqs : Option (List NamedImgSequence)) (localCache : Bool) : Dataset :=
  { localCache := localCache
    imgSeqs := imgSeqs.getD []
    imgStacks := []
    dptStacks := []
    labelStacks := [] }

/-- The `imgSeqs` property setter: replaces the collection and clears
`_imgStacks` and `_dptStacks` (the source does not touch `_labelStacks`). -/
def Dataset.setImgSeqs (ds : Dataset) (value : List NamedImgSequence) : Dataset :=
  { ds with imgSeqs := value, imgStacks := [], dptStacks := [] }

/-- `Dataset.imgSeq(seqName)`: linear scan by name; `none` models the `return []`
sentinel for a missing name. -/
def Dataset.imgSeq (ds : Dataset) (seqName : String) : Option NamedImgSequence :=
  ds.imgSeqs.find? (fun s => s.name == seqName)

/-- `imgSeq.config['cube'][2]`. -/
def NamedImgSequence.cube2 (s : NamedImgSequence) : ℚ :=
  s.config.cube.getD 2 0

/-- `frame.com[2]`. -/
def Frame.com2 (f : Frame) : ℚ :=
  f.com.getD 2 0

/-- Elementwise map over a rank-2 array. -/
def map2 (f : ℚ → ℚ) (a : Arr2) : Arr2 :=
  a.map (fun row => row.map f)

/-- Elementwise map over a rank-3 array. -/
def map3 (f : ℚ → ℚ) (a : Arr3) : Arr3 :=
  a.map (fun p => p.map (fun row => row.map f))

/-- numpy shape of a (rectangular) rank-2 array. -/
def shape2 (a : Arr2) : Nat × Nat :=
  (a.length, (a.headD []).length)

/-- numpy shape of a (rectangular) rank-3 array. -/
def shape3 (a : Arr3) : Nat × Nat × Nat :=
  (a.length, (a.headD []).length, ((a.headD []).headD []).length)

/-- Element access with numpy-style 0 default (indices are in range whenever the
source program reads them). -/
def idx1 (a : Arr1) (i : Nat) : ℚ :=
  a.getD i 0

/-- Rank-2 element access. -/
def idx2 (a : Arr2) (i j : Nat) : ℚ :=
  idx1 (a.getD i []) j

/-- Rank-3 element access. -/
def idx3 (a : Arr3) (i j k : Nat) : ℚ :=
  idx2 (a.getD i []) j k

/-- One source dimension is broadcast-compatible with one destination dimension. -/
def dimOk (src dst : Nat) : Bool :=
  src == dst || src == 1

/-- Index into a (possibly size-1) source dimension under broadcasting. -/
def bidx (srcDim i : Nat) : Nat :=
  if srcDim = 1 then 0 else i

/-- Broadcast a rank-2 array to shape (h, w) (defined when `dimOk` holds per axis). -/
def broadcast2 (src : Arr2) (h w : Nat) : Arr2 :=
  (List.range h).map (fun p =>
    (List.range w).map (fun q =>
      idx2 src (bidx (shape2 src).1 p) (bidx (shape2 src).2 q)))

/-- Broadcast a rank-3 array to shape (c, h, w). -/
def broadcast3 (src : Arr3) (c h w : Nat) : Arr3 :=
  (List.range c).map (fun p =>
    (List.range h).map (fun q =>
      (List.range w).map (fun r =>
        idx3 src (bidx (shape3 src).1 p) (bidx (shape3 src).2.1 q)
          (bidx (shape3 src).2.2 r))))

/-- Python exceptions the builders can raise. -/
inductive PyError where
  /-- `imgSeq.data[0]` on an empty frame list. -/
  | indexError
  /-- `imgStack[i] = imgRGB`: the (H,W,3) color frame cannot broadcast into the
  (3,H,W) slot. -/
  | valueErrorColor
  /-- `imgStack[i] = imgD`: depth frame incompatible with the (1,H,W) slot. -/
  | valueErrorDepth
  /-- `labelStack[i] = ...`: label incompatible with the (J,D) slot. -/
  | valueErrorLabel
  /-- `self._labelStacks[seqName]` missing while the image stack is cached. -/
  | keyError
deriving DecidableEq

/-- Per-frame RGB normalization (lines 95-102 of the source): `color / 256` in the
zero-one mode, `(color - 128) / 128` otherwise. -/
def normRGBFrame (normZeroOne : Bool) (color : Arr3) : Arr3 :=
  if normZeroOne then map3 (fun v => v / 256) color
  else map3 (fun v => (v - 128) / 128) color

/-- The depth-hole substitution `imgD[imgD == 0] = com[2] + cube[2]/2`. -/
def depthSubst (c2 cube2 : ℚ) (dpt : Arr2) : Arr2 :=
  map2 (fun v => if v = 0 then c2 + cube2 / 2 else v) dpt

/-- The depth scaling applied after substitution: `(v - (com2 - cube2/2)) / cube2`
in the zero-one mode, `(v - com2) / (cube2/2)` otherwise. -/
def depthScale (normZeroOne : Bool) (c2 cube2 v : ℚ) : ℚ :=
  if normZeroOne then (v - (c2 - cube2 / 2)) / cube2
  else (v - c2) / (cube2 / 2)

/-- Per-frame depth normalization (lines 133-144 of the source): substitute holes,
then shift and scale the whole array. -/
def normDepthFrame (normZeroOne : Bool) (c2 cube2 : ℚ) (dpt : Arr2) : Arr2 :=
  map2 (depthScale normZeroOne c2 cube2) (depthSubst c2 cube2 dpt)

/-- `numpy.clip(v, lo, hi)`. -/
def clip (v lo hi : ℚ) : ℚ :=
  min (max v lo) hi

/-- The label normalization both builders use:
`numpy.clip(gt3Dcrop / (cube[2] / 2.), -1, 1)`.  It does not depend on the
modality or on `normZeroOne`. -/
def normLabel (cube2 : ℚ) (gt3Dcrop : Arr2) : Arr2 :=
  map2 (fun v => clip (v / (cube2 / 2)) (-1) 1) gt3Dcrop

/-- One iteration of the RGB loop body: normalize the color frame, assign it into
the (3,h,w) slot (broadcast; `ValueError` if incompatible — the source never
transposes the (H,W,C) frame), then compute and assign the clipped label. -/
def rgbFrame (c2 : ℚ) (h w j d : Nat) (normZeroOne : Bool) (f : Frame) :
    Except PyError (Arr3 × Arr2) :=
  let imgRGB := normRGBFrame normZeroOne f.color
  let sh := shape3 imgRGB
  if dimOk sh.1 3 && dimOk sh.2.1 h && dimOk sh.2.2 w then
    let lbl := normLabel c2 f.gt3Dcrop
    let ls := shape2 lbl
    if dimOk ls.1 j && dimOk ls.2 d then
      .ok (broadcast3 imgRGB 3 h w, broadcast2 lbl j d)
    else .error .valueErrorLabel
  else .error .valueErrorColor

/-- One iteration of the depth loop body: normalize the depth frame (with hole
substitution), assign it into the (1,h,w) slot (numpy prepends a leading 1 to
the rank-2 source), then compute and assign the clipped label. -/
def dptFrame (c2 : ℚ) (h w j d : Nat) (normZeroOne : Bool) (f : Frame) :
    Except PyError (Arr3 × Arr2) :=
  let imgD := normDepthFrame normZeroOne f.com2 c2 f.dpt
  let sh := shape2 imgD
  if dimOk sh.1 h && dimOk sh.2 w then
    let lbl := normLabel c2 f.gt3Dcrop
    let ls := shape2 lbl
    if dimOk ls.1 j && dimOk ls.2 d then
      .ok (broadcast3 [imgD] 1 h w, broadcast2 lbl j d)
    else .error .valueErrorLabel
  else .error .valueErrorDepth

/-- The per-frame loop `for i in xrange(numImgs)`: process each frame in order,
propagating the first raised exception. -/
def mapFrames (g : Frame → Except PyError (Arr3 × Arr2)) :
    List Frame → Except PyError (List (Arr3 × Arr2))
  | [] => .ok []
  | f :: rest =>
    match g f with
    | .error e => .error e
    | .ok r =>
      match mapFrames g rest with
      | .error e => .error e
      | .ok rs => .ok (r :: rs)

/-- The compute-the-stack block of `imgStackRGBOnly` (lines 88-105): shapes come
from frame 0 (`h, w, _ = data0.shape`, `j, d = label0.shape`), then the loop
fills the (N,3,h,w) image stack and the (N,j,d) label stack. -/
def computeRGB (s : NamedImgSequence) (normZeroOne : Bool) :
    Except PyError (Arr4 × Arr3) :=
  match s.data with
  | [] => .error .indexError
  | f0 :: _ =>
    let hw := shape3 f0.color
    let jd := shape2 f0.gtorig
    match mapFrames (rgbFrame s.cube2 hw.2.1 hw.2.2 jd.1 jd.2 normZeroOne) s.data with
    | .error e => .error e
    | .ok frames => .ok (frames.map Prod.fst, frames.map Prod.snd)

/-- The compute-the-stack block of `imgStackDepthOnly` (lines 126-146): shapes
come from frame 0 (`h, w = data0.shape`), then the loop fills the (N,1,h,w)
image stack and the (N,j,d) label stack. -/
def computeDpt (s : NamedImgSequence) (normZeroOne : Bool) :
    Except PyError (Arr4 × Arr3) :=
  match s.data with
  | [] => .error .indexError
  | f0 :: _ =>
    let hw := shape2 f0.dpt
    let jd := shape2 f0.gtorig
    match mapFrames (dptFrame s.cube2 hw.1 hw.2 jd.1 jd.2 normZeroOne) s.data with
    | .error e => .error e
    | .ok frames => .ok (frames.map Prod.fst, frames.map Prod.snd)

/-- Result of a stack-builder call: the `return []` miss, the stack pair, or a
raised exception. -/
inductive StackResult where
  | notFound
  | stacks (img : Arr4) (label : Arr3)
  | error (e : PyError)
deriving DecidableEq

/-- `Dataset.imgStackRGBOnly(seqName, normZeroOne=False)`: resolve the name
(miss returns `[]` and changes nothing); if `seqName` is cached in
`_imgStacks`, return `_imgStacks[seqName], _labelStacks[seqName]`; otherwise
compute, and with `localCache` store into `_imgStacks` and `_labelStacks`
before the final cache read (which then yields the fresh pair). -/
def Dataset.imgStackRGBOnly (ds : Dataset) (seqName : String) (normZeroOne : Bool) :
    StackResult × Dataset :=
  match ds.imgSeq seqName with
  | none => (.notFound, ds)
  | some s =>
    match ds.imgStacks.lookup seqName with
    | some cachedImg =>
      match ds.labelStacks.lookup seqName with
      | some cachedLbl => (.stacks cachedImg cachedLbl, ds)
      | none => (.error .keyError, ds)
    | none =>
      match computeRGB s normZeroOne with
      | .error e => (.error e, ds)
      | .ok (im, lb) =>
        if ds.localCache then
          (.stacks im lb,
            { ds with imgStacks := ds.imgStacks.insert seqName im,
                      labelStacks := ds.labelStacks.insert seqName lb })
        else (.stacks im lb, ds)

/-- `Dataset.imgStackDepthOnly(seqName, normZeroOne=False)`: same structure as
the RGB builder with the `_dptStacks` cache. -/
def Dataset.imgStackDepthOnly (ds : Dataset) (seqName : String) (normZeroOne : Bool) :
    StackResult × Dataset :=
  match ds.imgSeq seqName with
  | none => (.notFound, ds)
  | some s =>
    match ds.dptStacks.lookup seqName with
    | some cachedImg =>
      match ds.labelStacks.lookup seqName with
      | some cachedLbl => (.stacks cachedImg cachedLbl, ds)
      | none => (.error .keyError, ds)
    | none =>
      match computeDpt s normZeroOne with
      | .error e => (.error e, ds)
      | .ok (im, lb) =>
        if ds.localCache then
          (.stacks im lb,
            { ds with dptStacks := ds.dptStacks.insert seqName im,
                      labelStacks := ds.labelStacks.insert seqName lb })
        else (.stacks im lb, ds)

/-! ### Concrete instances used by counterexamples and witnesses -/

/-- A frame with a generic 2x2 color image (shape (2,2,3)). -/
def frameB : Frame :=
  { color := [[[10, 20, 30], [40, 50, 60]], [[70, 80, 90], [100, 110, 120]]]
    dpt := [[3]]
    gtorig := [[0, 0, 0]]
    gt3Dcrop := [[1, -5, 9]]
    com := [0, 0, 0] }

/-- A sequence holding `frameB`, cube depth 2. -/
def seqB : NamedImgSequence :=
  { name := ("s"), config := { cube := [1, 1, 2] }, data := [frameB] }

/-- A caching dataset holding `seqB`. -/
def dsB : Dataset := Dataset.init (some [seqB]) true

/-- A sequence with an empty frame list. -/
def seqEmpty : NamedImgSequence :=
  { name := ("e"), config := { cube := [1, 1, 2] }, data := [] }

/-- A caching dataset holding the empty sequence. -/
def dsEmpty : Dataset := Dataset.init (some [seqEmpty]) true

/-- A frame whose color is 3x3 (the one shape the missing transpose does not
reject), with a 1x1 depth map. -/
def frameCube : Frame :=
  { color :=
      [[[0, 0, 0], [0, 0, 0], [0, 0, 0]],
       [[0, 0, 0], [0, 0, 0], [0, 0, 0]],
       [[0, 0, 0], [0, 0, 0], [0, 0, 0]]]
    dpt := [[1]]
    gtorig := [[0]]
    gt3Dcrop := [[5]]
    com := [0, 0, 0] }

/-- A sequence holding `frameCube`. -/
def seqCube : NamedImgSequence :=
  { name := ("c"), config := { cube := [1, 1, 2] }, data := [frameCube] }

/-- A caching dataset holding `seqCube`. -/
def dsCube : Dataset := Dataset.init (some [seqCube]) true

/-! ### Helper lemmas -/

theorem Dict.lookup_insert_self {α : Type} (d : Dict α) (k : String) (v : α) :
    (d.insert k v).lookup k = some v := by
  induction d with
  | nil => simp [Dict.insert, Dict.lookup]
  | cons h t ih =>
    by_cases hk : h.1 = k
    · simp [Dict.insert, hk, Dict.lookup]
    · simp [Dict.insert, hk, Dict.lookup, ih]

theorem find?_append_first (l1 l2 : List NamedImgSequence) (s1 : NamedImgSequence)
    (n : String) (h1 : ∀ s ∈ l1, s.name ≠ n) (h2 : s1.name = n) :
    (l1 ++ s1 :: l2).find? (fun s => s.name == n) = some s1 := by
  induction l1 with
  | nil => simp [List.find?, h2]
  | cons a t ih =>
    have ha : (a.name == n) = false := by
      simp only [beq_eq_false_iff_ne, ne_eq]
      exact h1 a (List.mem_cons_self a t)
    simp only [List.cons_append, List.find?, ha]
    exact ih (fun s hs => h1 s (List.mem_cons_of_mem a hs))

theorem getD_map_pres {α β : Type} (f : α → β) (d : α) (e : β) (he : f d = e)
    (l : List α) (p : Nat) : (l.map f).getD p e = f (l.getD p d) := by
  induction l generalizing p with
  | nil => cases p <;> simp [List.getD, he.symm]
  | cons a t ih => cases p with
    | zero => rfl
    | succ k => simpa using ih k

theorem getD_map_lt {α β : Type} (f : α → β) (l : List α) (p : Nat) (d : α) (e : β)
    (h : p < l.length) : (l.map f).getD p e = f (l.getD p d) := by
  induction l generalizing p with
  | nil => simp at h
  | cons a t ih => cases p with
    | zero => rfl
    | succ k => simpa using ih k (by simpa using h)

theorem map2_getD (f : ℚ → ℚ) (a : Arr2) (p : Nat) :
    (map2 f a).getD p [] = (a.getD p []).map f :=
  getD_map_pres (List.map f) [] [] rfl a p

theorem idx2_map2 (f : ℚ → ℚ) (a : Arr2) (p q : Nat)
    (hq : q < (a.getD p []).length) :
    idx2 (map2 f a) p q = f (idx2 a p q) := by
  unfold idx2 idx1
  rw [map2_getD]
  exact getD_map_lt f (a.getD p []) q 0 0 hq

theorem map3_getD (f : ℚ → ℚ) (a : Arr3) (p : Nat) :
    (map3 f a).getD p [] = map2 f (a.getD p []) :=
  getD_map_pres (fun x => map2 f x) [] [] rfl a p

theorem idx3_map3 (f : ℚ → ℚ) (a : Arr3) (p q r : Nat)
    (hr : r < ((a.getD p []).getD q []).length) :
    idx3 (map3 f a) p q r = f (idx3 a p q r) := by
  unfold idx3
  rw [map3_getD]
  exact idx2_map2 f (a.getD p []) q r hr

/-! ### Claim theorems -/

/-- C1 counterexample: the `imgSeqs` setter does not clear the label-stack
cache.  A dataset with a cached label stack for name "a" still has that cache
entry after the collection is replaced wholesale, falsifying "all cached
stacks — color image stacks, depth image stacks, and label stacks — are
cleared". -/
theorem C1_label_cache_not_cleared :
    ((Dataset.mk true [] [] [] [(("a"), [[[5]]])]).setImgSeqs [seqB]).labelStacks =
      [(("a"), [[[5]]])] ∧
    Dict.lookup ((Dataset.mk true [] [] [] [(("a"), [[[5]]])]).setImgSeqs
      [seqB]).labelStacks ("a") = some [[[5]]] := by
  exact ⟨rfl, rfl⟩

/-- C1 (amended): the setter clears the color and depth image-stack caches and
installs the new collection, but leaves the label-stack cache untouched;
nevertheless any subsequent stack request is recomputed from the new
collection — its result coincides with the result on a freshly constructed
dataset over the new collection — because recomputation is gated on the
(cleared) image-stack caches and the recomputed label stack overwrites any
stale entry. -/
theorem C1_setter_invalidation (ds : Dataset) (v : List NamedImgSequence)
    (n : String) (b : Bool) :
    (ds.setImgSeqs v).imgStacks = [] ∧
    (ds.setImgSeqs v).dptStacks = [] ∧
    (ds.setImgSeqs v).labelStacks = ds.labelStacks ∧
    (ds.setImgSeqs v).imgSeqs = v ∧
    ((ds.setImgSeqs v).imgStackRGBOnly n b).1 =
      ((Dataset.init (some v) ds.localCache).imgStackRGBOnly n b).1 ∧
    ((ds.setImgSeqs v).imgStackDepthOnly n b).1 =
      ((Dataset.init (some v) ds.localCache).imgStackDepthOnly n b).1 := by
  refine ⟨rfl, rfl, rfl, rfl, ?_, ?_⟩
  · simp only [Dataset.imgStackRGBOnly, Dataset.setImgSeqs, Dataset.init,
      Dataset.imgSeq, Option.getD]
    cases hf : v.find? (fun s => s.name == n) with
    | none => rfl
    | some s =>
      simp only [Dict.lookup]
      cases hc : computeRGB s b with
      | error e => rfl
      | ok p =>
        cases p with
        | mk im lb => cases hlc : ds.localCache <;> rfl
  · simp only [Dataset.imgStackDepthOnly, Dataset.setImgSeqs, Dataset.init,
      Dataset.imgSeq, Option.getD]
    cases hf : v.find? (fun s => s.name == n) with
    | none => rfl
    | some s =>
      simp only [Dict.lookup]
      cases hc : computeDpt s b with
      | error e => rfl
      | ok p =>
        cases p with
        | mk im lb => cases hlc : ds.localCache <;> rfl

/-- C2 (code bug evidence): on a sequence whose single frame has a generic
(2,2,3) color image, `imgStackRGBOnly` raises a broadcast `ValueError` at
`imgStack[i] = imgRGB` — the (H,W,C) frame is never transposed into the
(3,H,W) slot — instead of returning the claimed (N,3,H,W) stack; the state is
left unchanged. -/
theorem C2_rgb_broadcast_raises :
    (dsB.imgStackRGBOnly ("s") false).1 = .error .valueErrorColor ∧
    (dsB.imgStackRGBOnly ("s") false).2 = dsB := by decide

/-- C4 counterexample: for the registered sequence "e" with an empty frame
list, both builders raise (`imgSeq.data[0]` is an IndexError) rather than
returning the empty/absent result the claim promises. -/
theorem C4_empty_raises_counterexample :
    (dsEmpty.imgStackRGBOnly ("e") false).1 = .error .indexError ∧
    (dsEmpty.imgStackDepthOnly ("e") false).1 = .error .indexError ∧
    (dsEmpty.imgStackRGBOnly ("e") false).1 ≠ .notFound ∧
    (dsEmpty.imgStackDepthOnly ("e") false).1 ≠ .notFound := by decide

/-- C4 (amended): for a registered sequence with an empty frame list (and no
stale cache entry under its name), both builders raise an IndexError when
indexing frame 0 — the tolerant empty return is reserved for unknown names —
and leave the dataset state unchanged. -/
theorem C4_empty_sequence_raises (ds : Dataset) (n : String) (b : Bool)
    (s : NamedImgSequence)
    (hseq : ds.imgSeq n = some s) (hdata : s.data = [])
    (hi : ds.imgStacks.lookup n = none) (hd : ds.dptStacks.lookup n = none) :
    (ds.imgStackRGBOnly n b).1 = .error .indexError ∧
    (ds.imgStackRGBOnly n b).2 = ds ∧
    (ds.imgStackDepthOnly n b).1 = .error .indexError ∧
    (ds.imgStackDepthOnly n b).2 = ds := by
  have hr : computeRGB s b = .error .indexError := by
    unfold computeRGB
    rw [hdata]
  have hdp : computeDpt s b = .error .indexError := by
    unfold computeDpt
    rw [hdata]
  refine ⟨?_, ?_, ?_, ?_⟩ <;>
    simp [Dataset.imgStackRGBOnly, Dataset.imgStackDepthOnly, hseq, hi, hd, hr, hdp]

/-- C8: for a name matching no sequence in the collection, `imgSeq` returns the
absent sentinel and both builders return the empty result without raising,
leaving the dataset state unchanged. -/
theorem C8_unknown_name (ds : Dataset) (n : String) (b : Bool)
    (h : ∀ s ∈ ds.imgSeqs, s.name ≠ n) :
    ds.imgSeq n = none ∧
    ds.imgStackRGBOnly n b = (.notFound, ds) ∧
    ds.imgStackDepthOnly n b = (.notFound, ds) := by
  have hf : ds.imgSeq n = none := by
    unfold Dataset.imgSeq
    rw [List.find?_eq_none]
    intro x hx
    simpa using h x hx
  refine ⟨hf, ?_, ?_⟩ <;>
    simp [Dataset.imgStackRGBOnly, Dataset.imgStackDepthOnly, hf]

/-- C8 witness: the concrete dataset `dsB` has no sequence named "z", and both
builders return the miss result for "z". -/
theorem C8_unknown_name_witness :
    dsB.imgSeq ("z") = none ∧
    dsB.imgStackRGBOnly ("z") true = (.notFound, dsB) ∧
    dsB.imgStackDepthOnly ("z") true = (.notFound, dsB) :=
  C8_unknown_name dsB ("z") true (by decide)

/-- C10: when the collection contains duplicate names, the lookup used by
`imgSeq` and by both builders resolves to the first match in collection
order: the sequences after the first match can be replaced arbitrarily
without changing `imgSeq`'s answer or either builder's result. -/
theorem C10_first_match_wins (lc : Bool) (l1 l2 l2' : List NamedImgSequence)
    (s1 : NamedImgSequence) (ci cd : Dict Arr4) (cl : Dict Arr3)
    (n : String) (b : Bool)
    (h1 : ∀ s ∈ l1, s.name ≠ n) (h2 : s1.name = n) :
    (Dataset.mk lc (l1 ++ s1 :: l2) ci cd cl).imgSeq n = some s1 ∧
    (Dataset.mk lc (l1 ++ s1 :: l2') ci cd cl).imgSeq n = some s1 ∧
    ((Dataset.mk lc (l1 ++ s1 :: l2) ci cd cl).imgStackRGBOnly n b).1 =
      ((Dataset.mk lc (l1 ++ s1 :: l2') ci cd cl).imgStackRGBOnly n b).1 ∧
    ((Dataset.mk lc (l1 ++ s1 :: l2) ci cd cl).imgStackDepthOnly n b).1 =
      ((Dataset.mk lc (l1 ++ s1 :: l2') ci cd cl).imgStackDepthOnly n b).1 := by
  have hf : ∀ m : List NamedImgSequence,
      (Dataset.mk lc (l1 ++ s1 :: m) ci cd cl).imgSeq n = some s1 := by
    intro m
    unfold Dataset.imgSeq
    exact find?_append_first l1 m s1 n h1 h2
  refine ⟨hf l2, hf l2', ?_, ?_⟩
  · simp only [Dataset.imgStackRGBOnly, hf]
    cases hcl : ci.lookup n with
    | some cImg => cases hll : cl.lookup n <;> rfl
    | none =>
      cases hc : computeRGB s1 b with
      | error e => rfl
      | ok p => cases p; cases lc <;> rfl
  · simp only [Dataset.imgStackDepthOnly, hf]
    cases hcl : cd.lookup n with
    | some cImg => cases hll : cl.lookup n <;> rfl
    | none =>
      cases hc : computeDpt s1 b with
      | error e => rfl
      | ok p => cases p; cases lc <;> rfl

/-- C10 witness: with a front list containing "s", a first match `seqEmpty`
for "e" and differing tails, the lookup answers `seqEmpty` and both builders
agree across the tails. -/
theorem C10_first_match_wins_witness :
    (Dataset.mk true ([seqB] ++ seqEmpty :: [seqCube]) [] [] []).imgSeq ("e") =
      some seqEmpty ∧
    (Dataset.mk true ([seqB] ++ seqEmpty :: []) [] [] []).imgSeq ("e") =
      some seqEmpty ∧
    ((Dataset.mk true ([seqB] ++ seqEmpty :: [seqCube]) [] [] []).imgStackRGBOnly
        ("e") false).1 =
      ((Dataset.mk true ([seqB] ++ seqEmpty :: []) [] [] []).imgStackRGBOnly
        ("e") false).1 ∧
    ((Dataset.mk true ([seqB] ++ seqEmpty :: [seqCube]) [] [] []).imgStackDepthOnly
        ("e") false).1 =
      ((Dataset.mk true ([seqB] ++ seqEmpty :: []) [] [] []).imgStackDepthOnly
        ("e") false).1 :=
  C10_first_match_wins true [seqB] [seqCube] [] seqEmpty [] [] [] ("e") false
    (by decide) rfl

/-- Helper for C3: with caching on, a successful depth request leaves the
result in the caches, and a repeat request — with either normalization mode —
returns the same stacks from cache. -/
theorem dpt_second_call (ds : Dataset) (n : String) (b b' : Bool)
    (im : Arr4) (lb : Arr3)
    (hlc : ds.localCache = true)
    (h1 : (ds.imgStackDepthOnly n b).1 = .stacks im lb) :
    ((ds.imgStackDepthOnly n b).2.imgStackDepthOnly n b').1 = .stacks im lb := by
  cases hseq : ds.imgSeq n with
  | none => simp [Dataset.imgStackDepthOnly, hseq] at h1
  | some s =>
    cases hcache : ds.dptStacks.lookup n with
    | some ci =>
      cases hlbl : ds.labelStacks.lookup n with
      | none => simp [Dataset.imgStackDepthOnly, hseq, hcache, hlbl] at h1
      | some cl =>
        have h2 : ds.imgStackDepthOnly n b = (.stacks ci cl, ds) := by
          simp [Dataset.imgStackDepthOnly, hseq, hcache, hlbl]
        rw [h2] at h1
        simp only at h1
        rw [h2]
        simpa [Dataset.imgStackDepthOnly, hseq, hcache, hlbl] using h1
    | none =>
      cases hc : computeDpt s b with
      | error e => simp [Dataset.imgStackDepthOnly, hseq, hcache, hc] at h1
      | ok p =>
        obtain ⟨i, l⟩ := p
        have h2 : ds.imgStackDepthOnly n b =
            (.stacks i l,
             { ds with dptStacks := ds.dptStacks.insert n i,
                       labelStacks := ds.labelStacks.insert n l }) := by
          simp [Dataset.imgStackDepthOnly, hseq, hcache, hc, hlc]
        rw [h2] at h1
        simp only at h1
        simp only [StackResult.stacks.injEq] at h1
        obtain ⟨rfl, rfl⟩ := h1
        have hseq2 : ({ ds with
            dptStacks := ds.dptStacks.insert n i,
            labelStacks := ds.labelStacks.insert n l } : Dataset).imgSeq n
            = some s := hseq
        rw [h2]
        simp [Dataset.imgStackDepthOnly, hseq2, Dict.lookup_insert_self]

/-- Helper for C3: the color-stack analogue of `dpt_second_call`. -/
theorem rgb_second_call (ds : Dataset) (n : String) (b b' : Bool)
    (im : Arr4) (lb : Arr3)
    (hlc : ds.localCache = true)
    (h1 : (ds.imgStackRGBOnly n b).1 = .stacks im lb) :
    ((ds.imgStackRGBOnly n b).2.imgStackRGBOnly n b').1 = .stacks im lb := by
  cases hseq : ds.imgSeq n with
  | none => simp [Dataset.imgStackRGBOnly, hseq] at h1
  | some s =>
    cases hcache : ds.imgStacks.lookup n with
    | some ci =>
      cases hlbl : ds.labelStacks.lookup n with
      | none => simp [Dataset.imgStackRGBOnly, hseq, hcache, hlbl] at h1
      | some cl =>
        have h2 : ds.imgStackRGBOnly n b = (.stacks ci cl, ds) := by
          simp [Dataset.imgStackRGBOnly, hseq, hcache, hlbl]
        rw [h2] at h1
        simp only at h1
        rw [h2]
        simpa [Dataset.imgStackRGBOnly, hseq, hcache, hlbl] using h1
    | none =>
      cases hc : computeRGB s b with
      | error e => simp [Dataset.imgStackRGBOnly, hseq, hcache, hc] at h1
      | ok p =>
        obtain ⟨i, l⟩ := p
        have h2 : ds.imgStackRGBOnly n b =
            (.stacks i l,
             { ds with imgStacks := ds.imgStacks.insert n i,
                       labelStacks := ds.labelStacks.insert n l }) := by
          simp [Dataset.imgStackRGBOnly, hseq, hcache, hc, hlc]
        rw [h2] at h1
        simp only at h1
        simp only [StackResult.stacks.injEq] at h1
        obtain ⟨rfl, rfl⟩ := h1
        have hseq2 : ({ ds with
            imgStacks := ds.imgStacks.insert n i,
            labelStacks := ds.labelStacks.insert n l } : Dataset).imgSeq n
            = some s := hseq
        rw [h2]
        simp [Dataset.imgStackRGBOnly, hseq2, Dict.lookup_insert_self]

/-- C3 counterexample: with caching on, the cache key is the sequence name
only.  After a depth request for "s" with `normZeroOne = False`, a second
depth request for "s" with `normZeroOne = True` returns the stacks computed
under the first mode (`[[[[3]]]]`), not the stacks the second mode computes
(`[[[[2]]]]`). -/
theorem C3_mode_cache_counterexample :
    ((dsB.imgStackDepthOnly ("s") false).2.imgStackDepthOnly ("s") true).1 =
      (dsB.imgStackDepthOnly ("s") false).1 ∧
    ((dsB.imgStackDepthOnly ("s") false).2.imgStackDepthOnly ("s") true).1 =
      .stacks [[[[3]]]] [[[1, -1, 1]]] ∧
    (dsB.imgStackDepthOnly ("s") true).1 = .stacks [[[[2]]]] [[[1, -1, 1]]] ∧
    ((dsB.imgStackDepthOnly ("s") false).2.imgStackDepthOnly ("s") true).1 ≠
      (dsB.imgStackDepthOnly ("s") true).1 := by
  refine ⟨?_, ?_, ?_, ?_⟩ <;>
    norm_num [Dataset.imgStackDepthOnly, Dataset.imgSeq, dsB, seqB, frameB, Dataset.init,
      Dict.lookup, Dict.insert, computeDpt, mapFrames, dptFrame, normDepthFrame,
      depthSubst, depthScale, normLabel, map2, clip, broadcast2, broadcast3,
      idx3, idx2, idx1, shape2, shape3, dimOk, bidx, NamedImgSequence.cube2,
      Frame.com2, List.find?, List.range_succ]

/-- C3 (amended): with caching enabled, stacks are cached per sequence name
only — the normalization mode is not part of the key.  After a successful
first request, a second request for the same sequence and modality with the
other `normZeroOne` value returns the stacks cached under the first mode. -/
theorem C3_cache_ignores_norm_mode (ds : Dataset) (n : String) (b b' : Bool)
    (di : Arr4) (dl : Arr3) (ri : Arr4) (rl : Arr3)
    (hlc : ds.localCache = true)
    (hd : (ds.imgStackDepthOnly n b).1 = .stacks di dl)
    (hr : (ds.imgStackRGBOnly n b).1 = .stacks ri rl) :
    ((ds.imgStackDepthOnly n b).2.imgStackDepthOnly n b').1 = .stacks di dl ∧
    ((ds.imgStackRGBOnly n b).2.imgStackRGBOnly n b').1 = .stacks ri rl :=
  ⟨dpt_second_call ds n b b' di dl hlc hd, rgb_second_call ds n b b' ri rl hlc hr⟩

/-- C3 witness: on the concrete dataset `dsCube`, first requests with
`normZeroOne = False` succeed for both modalities, and repeat requests with
`normZeroOne = True` return the cached first-mode stacks. -/
theorem C3_cache_ignores_norm_mode_witness :
    ((dsCube.imgStackDepthOnly ("c") false).2.imgStackDepthOnly ("c") true).1 =
      .stacks [[[[1]]]] [[[1]]] ∧
    ((dsCube.imgStackRGBOnly ("c") false).2.imgStackRGBOnly ("c") true).1 =
      .stacks
        [[[[-1, -1, -1], [-1, -1, -1], [-1, -1, -1]],
          [[-1, -1, -1], [-1, -1, -1], [-1, -1, -1]],
          [[-1, -1, -1], [-1, -1, -1], [-1, -1, -1]]]]
        [[[1]]] :=
  C3_cache_ignores_norm_mode dsCube ("c") false true [[[[1]]]] [[[1]]]
    [[[[-1, -1, -1], [-1, -1, -1], [-1, -1, -1]],
      [[-1, -1, -1], [-1, -1, -1], [-1, -1, -1]],
      [[-1, -1, -1], [-1, -1, -1], [-1, -1, -1]]]]
    [[[1]]] rfl
    (by
      norm_num [Dataset.imgStackDepthOnly, Dataset.imgSeq, dsCube, seqCube, frameCube,
        Dataset.init, Dict.lookup, Dict.insert, computeDpt, mapFrames, dptFrame,
        normDepthFrame, depthSubst, depthScale, normLabel, map2, clip, broadcast2,
        broadcast3, idx3, idx2, idx1, shape2, shape3, dimOk, bidx,
        NamedImgSequence.cube2, Frame.com2, List.find?, List.range_succ])
    (by
      norm_num [Dataset.imgStackRGBOnly, Dataset.imgSeq, dsCube, seqCube, frameCube,
        Dataset.init, Dict.lookup, Dict.insert, computeRGB, mapFrames, rgbFrame,
        normRGBFrame, map3, normLabel, map2, clip, broadcast2, broadcast3,
        idx3, idx2, idx1, shape2, shape3, dimOk, bidx,
        NamedImgSequence.cube2, Frame.com2, List.find?, List.range_succ])

/-- C4 witness: the amended empty-sequence statement applied to the concrete
dataset `dsEmpty` and its registered empty sequence "e". -/
theorem C4_empty_sequence_raises_witness :
    (dsEmpty.imgStackRGBOnly ("e") true).1 = .error .indexError ∧
    (dsEmpty.imgStackRGBOnly ("e") true).2 = dsEmpty ∧
    (dsEmpty.imgStackDepthOnly ("e") true).1 = .error .indexError ∧
    (dsEmpty.imgStackDepthOnly ("e") true).2 = dsEmpty :=
  C4_empty_sequence_raises dsEmpty ("e") true seqEmpty (by decide) rfl rfl rfl

/-- C5: for every pixel (p,q) with `dpt[p,q] = 0`, the per-frame depth
normalization first substitutes `com[2] + cube[2]/2` and then applies the same
scaling as for non-zero pixels, so the output there equals
`depthScale` of the far crop boundary — which is exactly 1 in both
normalization modes whenever `cube[2] ≠ 0`. -/
theorem C5_depth_hole (b : Bool) (c2 cube2 : ℚ) (dpt : Arr2) (p q : Nat)
    (hq : q < (dpt.getD p []).length) (h0 : idx2 dpt p q = 0) :
    idx2 (normDepthFrame b c2 cube2 dpt) p q =
      depthScale b c2 cube2 (c2 + cube2 / 2) ∧
    (cube2 ≠ 0 → idx2 (normDepthFrame b c2 cube2 dpt) p q = 1) := by
  have hsub : idx2 (depthSubst c2 cube2 dpt) p q = c2 + cube2 / 2 := by
    unfold depthSubst
    rw [idx2_map2 _ _ _ _ hq, h0]
    simp
  have hq2 : q < ((depthSubst c2 cube2 dpt).getD p []).length := by
    unfold depthSubst
    rw [map2_getD]
    simpa using hq
  have hmain : idx2 (normDepthFrame b c2 cube2 dpt) p q =
      depthScale b c2 cube2 (c2 + cube2 / 2) := by
    unfold normDepthFrame
    rw [idx2_map2 _ _ _ _ hq2, hsub]
  refine ⟨hmain, fun hc => ?_⟩
  rw [hmain]
  cases b with
  | false =>
    have h2 : cube2 / 2 ≠ 0 := div_ne_zero hc two_ne_zero
    simp only [depthScale, Bool.false_eq_true, if_false]
    rw [show c2 + cube2 / 2 - c2 = cube2 / 2 by ring]
    exact div_self h2
  | true =>
    simp only [depthScale, if_true]
    rw [show c2 + cube2 / 2 - (c2 - cube2 / 2) = cube2 by ring]
    exact div_self hc

/-- C5 witness: a 1x1 depth map holding the hole value 0, with com[2] = 5 and
cube[2] = 4, normalizes to exactly 1 in both modes. -/
theorem C5_depth_hole_witness :
    idx2 (normDepthFrame true 5 4 [[0]]) 0 0 = 1 ∧
    idx2 (normDepthFrame false 5 4 [[0]]) 0 0 = 1 :=
  ⟨(C5_depth_hole true 5 4 [[0]] 0 0 (by decide) rfl).2 (by norm_num),
   (C5_depth_hole false 5 4 [[0]] 0 0 (by decide) rfl).2 (by norm_num)⟩

/-- C6: the label normalization shared by both builders (both `rgbFrame` and
`dptFrame` call `normLabel`, independently of the modality and of
`normZeroOne`) equals the elementwise clip of `gt3Dcrop / (cube[2]/2)` to
[-1,1]; every output coordinate lies in [-1,1], and a coordinate beyond
±cube[2]/2 saturates to exactly +1 or -1. -/
theorem C6_label_clip (c2 : ℚ) (g : Arr2) (p q : Nat)
    (hq : q < (g.getD p []).length) :
    idx2 (normLabel c2 g) p q = clip (idx2 g p q / (c2 / 2)) (-1) 1 ∧
    -1 ≤ idx2 (normLabel c2 g) p q ∧
    idx2 (normLabel c2 g) p q ≤ 1 ∧
    (0 < c2 → c2 / 2 < idx2 g p q → idx2 (normLabel c2 g) p q = 1) ∧
    (0 < c2 → idx2 g p q < -(c2 / 2) → idx2 (normLabel c2 g) p q = -1) := by
  have hmain : idx2 (normLabel c2 g) p q = clip (idx2 g p q / (c2 / 2)) (-1) 1 := by
    unfold normLabel
    exact idx2_map2 _ _ _ _ hq
  refine ⟨hmain, ?_, ?_, ?_, ?_⟩
  · rw [hmain]
    exact le_min (le_max_right _ _) (by norm_num)
  · rw [hmain]
    exact min_le_right _ _
  · intro hc2 hgt
    have hhalf : 0 < c2 / 2 := by positivity
    have hv : 1 < idx2 g p q / (c2 / 2) := (one_lt_div hhalf).mpr hgt
    rw [hmain]
    unfold clip
    rw [max_eq_left (by linarith), min_eq_right (by linarith)]
  · intro hc2 hlt
    have hhalf : 0 < c2 / 2 := by positivity
    have hv : idx2 g p q / (c2 / 2) < -1 := by
      rw [div_lt_iff₀ hhalf]
      linarith
    rw [hmain]
    unfold clip
    rw [max_eq_right (by linarith), min_eq_left (by norm_num)]

/-- C6 witness: with cube[2] = 2, a gt3Dcrop coordinate 3 (beyond the
half-cube 1) saturates to exactly 1. -/
theorem C6_label_clip_witness : idx2 (normLabel 2 [[3]]) 0 0 = 1 :=
  (C6_label_clip 2 [[3]] 0 0 (by decide)).2.2.2.1 (by norm_num)
    (by norm_num [idx2, idx1])

/-- C7: the per-frame RGB normalization is `color / 256` when `normZeroOne`
and `(color - 128) / 128` otherwise; for input values in [0,255] the output
lies in [0,1) in the first mode and in [-1,1] in the second. -/
theorem C7_rgb_normalization (b : Bool) (color : Arr3) (p q r : Nat)
    (hr : r < ((color.getD p []).getD q []).length) :
    idx3 (normRGBFrame b color) p q r =
      (if b then idx3 color p q r / 256 else (idx3 color p q r - 128) / 128) ∧
    (0 ≤ idx3 color p q r → idx3 color p q r ≤ 255 →
      (b = true → 0 ≤ idx3 (normRGBFrame b color) p q r ∧
        idx3 (normRGBFrame b color) p q r < 1) ∧
      (b = false → -1 ≤ idx3 (normRGBFrame b color) p q r ∧
        idx3 (normRGBFrame b color) p q r ≤ 1)) := by
  cases b with
  | true =>
    have hmain : idx3 (normRGBFrame true color) p q r = idx3 color p q r / 256 := by
      unfold normRGBFrame
      rw [if_pos rfl]
      exact idx3_map3 _ _ _ _ _ hr
    constructor
    · simpa using hmain
    · intro h0 h255
      constructor
      · intro _
        rw [hmain]
        exact ⟨div_nonneg h0 (by norm_num),
          (div_lt_one (by norm_num)).mpr (by linarith)⟩
      · intro hf
        exact absurd hf (by simp)
  | false =>
    have hmain : idx3 (normRGBFrame false color) p q r =
        (idx3 color p q r - 128) / 128 := by
      unfold normRGBFrame
      rw [if_neg (by simp)]
      exact idx3_map3 _ _ _ _ _ hr
    constructor
    · simpa using hmain
    · intro h0 h255
      constructor
      · intro ht
        exact absurd ht (by simp)
      · intro _
        rw [hmain]
        constructor
        · rw [le_div_iff₀ (by norm_num : (0:ℚ) < 128)]
          linarith
        · exact (div_le_one (by norm_num)).mpr (by linarith)

/-- C7 witness: the color value 200 maps to 200/256 ∈ [0,1) in the zero-one
mode and to (200-128)/128 ∈ [-1,1] otherwise. -/
theorem C7_rgb_normalization_witness :
    (0 ≤ idx3 (normRGBFrame true [[[200]]]) 0 0 0 ∧
      idx3 (normRGBFrame true [[[200]]]) 0 0 0 < 1) ∧
    (-1 ≤ idx3 (normRGBFrame false [[[200]]]) 0 0 0 ∧
      idx3 (normRGBFrame false [[[200]]]) 0 0 0 ≤ 1) :=
  ⟨((C7_rgb_normalization true [[[200]]] 0 0 0 (by decide)).2
      (by norm_num [idx3, idx2, idx1]) (by norm_num [idx3, idx2, idx1])).1 rfl,
   ((C7_rgb_normalization false [[[200]]] 0 0 0 (by decide)).2
      (by norm_num [idx3, idx2, idx1]) (by norm_num [idx3, idx2, idx1])).2 rfl⟩

/-- C9: with caching enabled, the color and depth image stacks for one name
live in separate caches (`_imgStacks` vs `_dptStacks`) that do not collide,
while label stacks share one cache keyed by name — after a depth request and
then a color request for the same name, both image caches hold their own
stack and the shared label cache holds the last-computed (color-request)
label stack, which is also what that request returned. -/
theorem C9_cache_namespaces (ds : Dataset) (n : String) (b b' : Bool)
    (s : NamedImgSequence) (di ri : Arr4) (dl rl : Arr3)
    (hlc : ds.localCache = true)
    (hseq : ds.imgSeq n = some s)
    (hd : ds.dptStacks.lookup n = none)
    (hi : ds.imgStacks.lookup n = none)
    (hcd : computeDpt s b = .ok (di, dl))
    (hcr : computeRGB s b' = .ok (ri, rl)) :
    (ds.imgStackDepthOnly n b).1 = .stacks di dl ∧
    ((ds.imgStackDepthOnly n b).2.imgStackRGBOnly n b').1 = .stacks ri rl ∧
    (((ds.imgStackDepthOnly n b).2.imgStackRGBOnly n b').2).dptStacks.lookup n
      = some di ∧
    (((ds.imgStackDepthOnly n b).2.imgStackRGBOnly n b').2).imgStacks.lookup n
      = some ri ∧
    (((ds.imgStackDepthOnly n b).2.imgStackRGBOnly n b').2).labelStacks.lookup n
      = some rl := by
  obtain ⟨lc, seqs, ci, cd, cl⟩ := ds
  have hlc' : lc = true := hlc
  subst hlc'
  have h1 : (Dataset.mk true seqs ci cd cl).imgStackDepthOnly n b =
      (.stacks di dl, Dataset.mk true seqs ci (cd.insert n di) (cl.insert n dl)) := by
    simp [Dataset.imgStackDepthOnly, hseq, hd, hcd]
  have hseq1 : (Dataset.mk true seqs ci (cd.insert n di)
      (cl.insert n dl)).imgSeq n = some s := hseq
  have h2 : (Dataset.mk true seqs ci (cd.insert n di)
        (cl.insert n dl)).imgStackRGBOnly n b' =
      (.stacks ri rl, Dataset.mk true seqs (ci.insert n ri) (cd.insert n di)
        ((cl.insert n dl).insert n rl)) := by
    simp [Dataset.imgStackRGBOnly, hseq1, hi, hcr]
  rw [h1]
  dsimp only
  rw [h2]
  dsimp only
  exact ⟨rfl, rfl, Dict.lookup_insert_self _ _ _, Dict.lookup_insert_self _ _ _,
    Dict.lookup_insert_self _ _ _⟩

/-- C9 witness: on `dsCube`, a depth request then a color request for "c"
leave the depth stack under the depth cache, the color stack under the color
cache, and the color-request label stack in the shared label cache. -/
theorem C9_cache_namespaces_witness :
    (dsCube.imgStackDepthOnly ("c") false).1 = .stacks [[[[1]]]] [[[1]]] ∧
    ((dsCube.imgStackDepthOnly ("c") false).2.imgStackRGBOnly ("c") false).1 =
      .stacks
        [[[[-1, -1, -1], [-1, -1, -1], [-1, -1, -1]],
          [[-1, -1, -1], [-1, -1, -1], [-1, -1, -1]],
          [[-1, -1, -1], [-1, -1, -1], [-1, -1, -1]]]]
        [[[1]]] ∧
    (((dsCube.imgStackDepthOnly ("c") false).2.imgStackRGBOnly ("c")
        false).2).dptStacks.lookup ("c") = some [[[[1]]]] ∧
    (((dsCube.imgStackDepthOnly ("c") false).2.imgStackRGBOnly ("c")
        false).2).imgStacks.lookup ("c") =
      some
        [[[[-1, -1, -1], [-1, -1, -1], [-1, -1, -1]],
          [[-1, -1, -1], [-1, -1, -1], [-1, -1, -1]],
          [[-1, -1, -1], [-1, -1, -1], [-1, -1, -1]]]] ∧
    (((dsCube.imgStackDepthOnly ("c") false).2.imgStackRGBOnly ("c")
        false).2).labelStacks.lookup ("c") = some [[[1]]] :=
  C9_cache_namespaces dsCube ("c") false false seqCube
    [[[[1]]]]
    [[[[-1, -1, -1], [-1, -1, -1], [-1, -1, -1]],
      [[-1, -1, -1], [-1, -1, -1], [-1, -1, -1]],
      [[-1, -1, -1], [-1, -1, -1], [-1, -1, -1]]]]
    [[[1]]] [[[1]]] rfl (by decide) rfl rfl
    (by
      norm_num [computeDpt, mapFrames, dptFrame, seqCube, frameCube, normDepthFrame,
        depthSubst, depthScale, normLabel, map2, clip, broadcast2, broadcast3,
        idx3, idx2, idx1, shape2, shape3, dimOk, bidx,
        NamedImgSequence.cube2, Frame.com2, List.range_succ])
    (by
      norm_num [computeRGB, mapFrames, rgbFrame, seqCube, frameCube, normRGBFrame,
        map3, normLabel, map2, clip, broadcast2, broadcast3,
        idx3, idx2, idx1, shape2, shape3, dimOk, bidx,
        NamedImgSequence.cube2, Frame.com2, List.range_succ])
